import Mathlib

/-!
# Shallow embedding of the doug_clone web client and ingestion surface

JavaScript strings are modelled as lists of characters (`Str`); `String.prototype.trim`
becomes `jsTrim`, `text.slice(0, i+1)` becomes `List.take (i+1)`.  The React `useState`
cells of each component are gathered into a state record, and each event handler is a
pure function from the state (plus the outcome of the one HTTP call it makes) to the
final state, the request it issued (if any) and the toast it showed (if any).
-/

namespace DougClone

/-- JavaScript strings, modelled as lists of characters. -/
abbrev Str := List Char

/-- Whitespace recognised by `String.prototype.trim`. -/
def isJsWhitespace (c : Char) : Bool :=
  c == ' ' || c == '\t' || c == '\n' || c == '\r' || c == '\x0b' || c == '\x0c'

/-- `String.prototype.trim`: strip whitespace from both ends. -/
def jsTrim (s : Str) : Str :=
  ((s.dropWhile isJsWhitespace).reverse.dropWhile isJsWhitespace).reverse

/-- Message roles used by the chat view (`'user' | 'assistant'`). -/
inductive Role where
  | user
  | assistant
deriving DecidableEq, Repr

/-- A client-local chat message (`interface Message` in `ChatInterface`).
`Date.now()` ids and `new Date()` timestamps are modelled as naturals. -/
structure Message where
  id : Nat
  role : Role
  content : Str
  timestamp : Nat
deriving DecidableEq, Repr

/-- A `{role, content}` turn as sent over the wire. -/
structure RoleContent where
  role : Role
  content : Str
deriving DecidableEq, Repr

/-- The projection `m => ({ role: m.role, content: m.content })` in `handleSubmit`. -/
def projectMessage (m : Message) : RoleContent :=
  ⟨m.role, m.content⟩

/-- The JSON body POSTed to `/api/chat`.  `none` fields are absent from the JSON
(axios drops `undefined` keys). -/
structure ChatRequest where
  message : Option Str
  messages : Option (List RoleContent)
  persona_id : Option Str
  use_context : Bool
  temperature : ℚ
  max_tokens : Nat
deriving DecidableEq, Repr

/-- The persona id `'default'`. -/
def defaultPersona : Str := "default".data

/-- `api.chat` in `services/api.ts`: builds the `/api/chat` body from
`{ message, persona? }`.  `persona_id` is the caller's `persona` unchanged
(absent when the caller supplies none). -/
def apiChat (message : Str) (persona : Option Str) : ChatRequest :=
  { message := some message
    messages := none
    persona_id := persona
    use_context := true
    temperature := 0.7
    max_tokens := 1000 }

/-- `chatAPI.sendMessage` in `services/api.ts`: builds the `/api/chat` body from a
message list; the `personaId` parameter defaults to `'default'` when omitted. -/
def sendMessage (messages : List RoleContent) (personaId : Option Str) : ChatRequest :=
  { message := none
    messages := some messages
    persona_id := some (personaId.getD defaultPersona)
    use_context := true
    temperature := 0.7
    max_tokens := 1000 }

/-- The `useState` cells of `ChatInterface`. -/
structure ChatState where
  message : Str
  messages : List Message
  isLoading : Bool
  streamingContent : Str
deriving DecidableEq, Repr

/-- State of the `setInterval` timer created by `typewriterEffect`:
the counter `i`, the list of strings passed to the callback so far,
and whether `clearInterval` has run. -/
structure TimerState where
  i : Nat
  emitted : List Str
  cleared : Bool
deriving DecidableEq, Repr

/-- One firing of the `typewriterEffect` interval:
`if (i < text.length) { callback(text.slice(0, i + 1)); i++ } else { clearInterval(timer) }`.
A cleared timer never fires again. -/
def typewriterTick (text : Str) (s : TimerState) : TimerState :=
  if s.cleared then s
  else if s.i < text.length then
    { i := s.i + 1, emitted := s.emitted ++ [text.take (s.i + 1)], cleared := false }
  else
    { s with cleared := true }

/-- Timer state right after `setInterval`: `let i = 0`, nothing emitted. -/
def typewriterInit : TimerState := ⟨0, [], false⟩

/-- The timer state after `n` firings of the interval. -/
def typewriterRun (text : Str) (n : Nat) : TimerState :=
  (typewriterTick text)^[n] typewriterInit

/-- The toast text of the chat error path. -/
def chatErrorToast : Str := "Failed to send message. Please try again.".data

/-- Everything observable about one run of `handleSubmit`: the final component state
(after the `finally` block and, on success, the typewriter-completion `setTimeout`),
the request sent to `/api/chat` (if any), the toast shown (if any), and the sequence
of strings the typewriter callback passed to `setStreamingContent`. -/
structure SubmitResult where
  state : ChatState
  request : Option ChatRequest
  toast : Option Str
  revealTrace : List Str
deriving DecidableEq, Repr

/-- `handleSubmit` in `ChatInterface`.  `fetch` is the HTTP call
(`chatAPI.sendMessage`), already shaped to the `responseText` the component
extracts ( `(response).message ?? (response).response ?? ''` ); `.error` models a
thrown request.  Steps mirrored from the source:
guard `!message.trim() || isLoading`; build `userMessage` from the trimmed input;
`nextMessages = [...messages, userMessage]`; clear the input; set loading;
send the full projected history with persona `'default'`;
on success append an empty assistant placeholder, run the typewriter over the full
`responseText`, then replace the placeholder's content (matching on its id) with
`responseText` and clear `streamingContent`; on error show a toast;
`finally` clear loading. -/
def handleSubmit (s : ChatState) (now : Nat)
    (fetch : ChatRequest → Except Unit Str) : SubmitResult :=
  if (jsTrim s.message).isEmpty || s.isLoading then
    ⟨s, none, none, []⟩
  else
    let userMessage : Message := ⟨now, Role.user, jsTrim s.message, now⟩
    let nextMessages := s.messages ++ [userMessage]
    let req := sendMessage (nextMessages.map projectMessage) (some defaultPersona)
    match fetch req with
    | .error _ =>
        ⟨{ message := [], messages := nextMessages, isLoading := false,
           streamingContent := s.streamingContent },
         some req, some chatErrorToast, []⟩
    | .ok responseText =>
        let assistantMessage : Message := ⟨now + 1, Role.assistant, [], now⟩
        let withPlaceholder := nextMessages ++ [assistantMessage]
        let finalMessages := withPlaceholder.map fun m =>
          if m.id = assistantMessage.id then { m with content := responseText } else m
        ⟨{ message := [], messages := finalMessages, isLoading := false,
           streamingContent := [] },
         some req, none,
         (typewriterRun responseText (responseText.length + 1)).emitted⟩

/-- The chat text input's `disabled={isLoading}`. -/
def chatInputDisabled (s : ChatState) : Bool := s.isLoading

/-- The Send button's `disabled={!message.trim() || isLoading}`. -/
def sendButtonDisabled (s : ChatState) : Bool :=
  (jsTrim s.message).isEmpty || s.isLoading

/-- A quick-action button's `onClick={() => setMessage(prompt)}`: it only writes the
input cell and issues no request. -/
def quickActionClick (s : ChatState) (prompt : Str) : ChatState × Option ChatRequest :=
  ({ s with message := prompt }, none)

/-- The `Ask about me` button. -/
def askAboutMeClick (s : ChatState) : ChatState × Option ChatRequest :=
  quickActionClick s "Tell me about yourself".data

/-- The `Learn from insights` button. -/
def learnFromInsightsClick (s : ChatState) : ChatState × Option ChatRequest :=
  quickActionClick s "What insights do you have?".data

/-- The `Jam on a problem` button. -/
def jamOnProblemClick (s : ChatState) : ChatState × Option ChatRequest :=
  quickActionClick s "Help me solve a problem".data

/-! ## Ingestion view (`DataIngestion`) -/

/-- The `result` cell of `DataIngestion`: `{ success, message }`. -/
structure IngestResult where
  success : Bool
  message : Str
deriving DecidableEq, Repr

/-- The `useState` cells of `DataIngestion`. -/
structure IngestState where
  text : Str
  isProcessing : Bool
  result : Option IngestResult
deriving DecidableEq, Repr

/-- The JSON body POSTed to `/api/ingest` by `api.ingestData`. -/
structure IngestRequest where
  text : Str
  persona_id : Option Str
deriving DecidableEq, Repr

/-- The response body the client reads back from `/api/ingest`
(`response.data?.chunks_processed ?? response.data?.chunksCreated ?? 0` and
`response.data?.message`). -/
structure IngestHttpResponse where
  chunks_processed : Option Nat
  chunksCreated : Option Nat
  message : Option Str
deriving DecidableEq, Repr

/-- Toast for a whitespace-only ingest submit. -/
def emptyTextToast : Str := "Please enter some text to ingest".data

/-- Toast for a successful ingest. -/
def ingestSuccessToast : Str := "Data ingested successfully!".data

/-- Client fallback error message (`error.response?.data?.detail || 'Failed to ingest data'`). -/
def ingestFallbackError : Str := "Failed to ingest data".data

/-- Client fallback success message built from the chunk count. -/
def ingestFallbackSuccess (chunksProcessed : Nat) : Str :=
  ("Successfully processed " ++ toString chunksProcessed
    ++ " text chunks into embeddings").data

/-- JavaScript `a || b` on an optional string: `b` when `a` is absent or empty (falsy). -/
def orFalsy (a : Option Str) (b : Str) : Str :=
  match a with
  | some x => if x.isEmpty then b else x
  | none => b

/-- `handleIngest` in `DataIngestion`.  `call` is `api.ingestData`; `.error` carries
`error.response?.data?.detail`.  Mirrored steps: guard `!text.trim()` with an error
toast and no request; send `{ text: text.trim(), persona: selectedPersona }`;
on success set a success `result` and clear the text; on error set a failure
`result` (text untouched); `finally` clear `isProcessing`.
Returns (final state, request sent if any, toast shown if any). -/
def handleIngest (s : IngestState) (selectedPersona : Str)
    (call : IngestRequest → Except (Option Str) IngestHttpResponse) :
    IngestState × Option IngestRequest × Option Str :=
  if (jsTrim s.text).isEmpty then
    (s, none, some emptyTextToast)
  else
    let req : IngestRequest := ⟨jsTrim s.text, some selectedPersona⟩
    match call req with
    | .ok resp =>
        let chunksProcessed := ((resp.chunks_processed).orElse fun _ => resp.chunksCreated).getD 0
        let msg := orFalsy resp.message (ingestFallbackSuccess chunksProcessed)
        ({ text := [], isProcessing := false, result := some ⟨true, msg⟩ },
         some req, some ingestSuccessToast)
    | .error detail =>
        let errorMessage := orFalsy detail ingestFallbackError
        ({ text := s.text, isProcessing := false, result := some ⟨false, errorMessage⟩ },
         some req, some errorMessage)

/-- The Clear Text button's / X button's `onClick={() => setText('')}`. -/
def clearTextClick (s : IngestState) : IngestState :=
  { s with text := [] }

/-! ## Backend ingestion endpoint, modelled from the spec -/

/-- The spec's error taxonomy for ingestion. -/
inductive IngestError where
  | ValidationError
  | ProviderError
  | StorageError
deriving DecidableEq, Repr

/-- The `/api/ingest` success body: `{ chunks_processed, message }`. -/
structure BackendIngestResponse where
  chunks_processed : Nat
  message : Str
deriving DecidableEq, Repr

/-- A persisted `EmbeddingChunk` row (schema columns that the claims mention;
`metadata`/`created_at` carry no claim content and are omitted). -/
structure EmbeddingRow where
  id : Str
  text : Str
  embedding : List ℚ
  persona_id : Str
  chunk_index : Nat
deriving DecidableEq, Repr

/-- Chunk window size in characters (spec leaves the policy open; a fixed-size
character window is its suggested reasonable default). -/
def chunkSize : Nat := 1000

/-- Modelled from the spec: split text into fixed-size character windows
(the backend's chunker is not under `src/`; the policy is unspecified there). -/
def chunkText (l : Str) : List Str :=
  (List.range ((l.length + chunkSize - 1) / chunkSize)).map fun k =>
    (l.drop (k * chunkSize)).take chunkSize

/-- Build one `EmbeddingRow` per chunk, assigning consecutive `chunk_index`
values from `i` upward. -/
def mkRows (embed : Str → List ℚ) (mkId : Nat → Str) (personaId : Str) :
    List Str → Nat → List EmbeddingRow
  | [], _ => []
  | c :: cs, i => ⟨mkId i, c, embed c, personaId, i⟩ :: mkRows embed mkId personaId cs (i + 1)

/-- Modelled from the spec: the backend ingestion endpoint (`backend/main.py` is not
under `src/`).  Per the spec it fails with `ValidationError` on empty/whitespace-only
text and otherwise chunks the text, embeds each chunk via the provider (`embed`),
and writes one row per chunk with 0-based `chunk_index`, returning
`{ chunks_processed, message }`.  The returned row list is exactly what is persisted;
an error persists nothing. -/
def backendIngest (embed : Str → List ℚ) (mkId : Nat → Str)
    (text : Str) (personaId : Str) :
    Except IngestError (BackendIngestResponse × List EmbeddingRow) :=
  if (jsTrim text).isEmpty then
    .error .ValidationError
  else
    let chunks := chunkText text
    let rows := mkRows embed mkId personaId chunks 0
    .ok (⟨chunks.length, ("Ingested " ++ toString chunks.length ++ " chunks").data⟩, rows)

/-! ## Typewriter timer lemmas -/

lemma typewriterRun_succ (text : Str) (n : Nat) :
    typewriterRun text (n + 1) = typewriterTick text (typewriterRun text n) :=
  Function.iterate_succ_apply' _ _ _

/-- While the counter has not reached the end of the text, each firing emits the
next one-character-longer slice. -/
lemma typewriterRun_le (text : Str) :
    ∀ m, m ≤ text.length →
      typewriterRun text m =
        ⟨m, (List.range m).map (fun k => text.take (k + 1)), false⟩ := by
  intro m
  induction m with
  | zero => intro _; rfl
  | succ n ih =>
      intro hm
      have hn : n ≤ text.length := Nat.le_of_succ_le hm
      rw [typewriterRun_succ, ih hn]
      simp [typewriterTick, Nat.lt_of_succ_le hm, List.range_succ]

/-- After `text.length + 1` firings the timer has emitted every slice and cleared itself. -/
lemma typewriterRun_complete (text : Str) :
    typewriterRun text (text.length + 1) =
      ⟨text.length, (List.range text.length).map (fun k => text.take (k + 1)), true⟩ := by
  rw [typewriterRun_succ, typewriterRun_le text text.length le_rfl]
  simp [typewriterTick]

/-- A cleared timer never changes again. -/
lemma typewriterRun_stable (text : Str) (n : Nat) :
    typewriterRun text (text.length + 1 + n) = typewriterRun text (text.length + 1) := by
  induction n with
  | zero => rfl
  | succ k ih =>
      show typewriterRun text ((text.length + 1 + k) + 1) = _
      rw [typewriterRun_succ, ih, typewriterRun_complete]
      simp [typewriterTick]

/-! ## Backend row lemmas -/

/-- The `chunk_index` column of a row batch is the consecutive range starting at `i`. -/
lemma mkRows_map_chunk_index (embed : Str → List ℚ) (mkId : Nat → Str)
    (personaId : Str) :
    ∀ (cs : List Str) (i : Nat),
      (mkRows embed mkId personaId cs i).map EmbeddingRow.chunk_index =
        List.range' i cs.length := by
  intro cs
  induction cs with
  | nil => intro i; rfl
  | cons c cs ih =>
      intro i
      rw [List.length_cons, List.range'_succ]
      simp [mkRows, ih]

/-- Non-whitespace text yields at least one chunk. -/
lemma chunkText_length_pos (l : Str) (h : l ≠ []) : 1 ≤ (chunkText l).length := by
  have hl : 1 ≤ l.length := List.length_pos.mpr h
  have : 1 ≤ (l.length + chunkSize - 1) / chunkSize := by
    have h1 : chunkSize ≤ l.length + chunkSize - 1 := by
      simp only [chunkSize]
      omega
    exact Nat.one_le_div_iff (by simp [chunkSize]) |>.mpr h1
  simpa [chunkText] using this

/-! ## handleSubmit characterizations -/

/-- On a successful fetch, the typewriter callback trace is exactly the list of
slices `responseText.slice(0, k + 1)` for `k` below the text length. -/
lemma handleSubmit_ok_trace (s : ChatState) (now : Nat)
    (fetch : ChatRequest → Except Unit Str) (rt : Str)
    (h1 : (jsTrim s.message).isEmpty = false) (h2 : s.isLoading = false)
    (hf : ∀ r, fetch r = .ok rt) :
    (handleSubmit s now fetch).revealTrace
      = (List.range rt.length).map (fun k => rt.take (k + 1)) := by
  simp [handleSubmit, h1, h2, hf, typewriterRun_complete]

/-- On a successful fetch, the last message ends up being the assistant message
whose content is exactly the full response text. -/
lemma handleSubmit_ok_last (s : ChatState) (now : Nat)
    (fetch : ChatRequest → Except Unit Str) (rt : Str)
    (h1 : (jsTrim s.message).isEmpty = false) (h2 : s.isLoading = false)
    (hf : ∀ r, fetch r = .ok rt) :
    (handleSubmit s now fetch).state.messages.getLast?
      = some ⟨now + 1, Role.assistant, rt, now⟩ := by
  simp [handleSubmit, h1, h2, hf, List.getLast?_concat]

/-- Taking successive slices of a text yields strings of successive lengths. -/
lemma map_length_take (text : Str) :
    ((List.range text.length).map (fun k => text.take (k + 1))).map List.length
      = (List.range text.length).map (fun k => k + 1) := by
  rw [List.map_map]
  refine List.map_congr_left ?_
  intro k hk
  rw [List.mem_range] at hk
  simp [List.length_take, Nat.min_eq_left (Nat.succ_le_of_lt hk)]

/-! ## Claims -/

/-- Claim C1, counterexample: on a failed chat request the messages list is NOT
the same as before the submit — starting from an empty conversation with input
`"hi"`, after the throwing call the list still contains the just-added user
message. -/
theorem chat_error_retains_user_message_cex :
    (handleSubmit ⟨"hi".data, [], false, []⟩ 0 (fun _ => .error ())).state.messages
      ≠ (⟨"hi".data, [], false, []⟩ : ChatState).messages := by
  decide

/-- Claim C1 (amended): when the chat HTTP call throws, an error toast is shown
and the view returns to Idle (`isLoading` is cleared, the input was already
cleared), but the just-added user message of the failed turn remains appended
to the messages list. -/
theorem chat_error_rollback_amended (s : ChatState) (now : Nat)
    (fetch : ChatRequest → Except Unit Str)
    (h1 : (jsTrim s.message).isEmpty = false) (h2 : s.isLoading = false)
    (hf : ∀ r, fetch r = .error ()) :
    handleSubmit s now fetch =
      ⟨⟨[], s.messages ++ [⟨now, Role.user, jsTrim s.message, now⟩], false,
        s.streamingContent⟩,
       some (sendMessage ((s.messages ++ [(⟨now, Role.user, jsTrim s.message, now⟩ : Message)]).map
          projectMessage) (some defaultPersona)),
       some chatErrorToast, []⟩ := by
  simp [handleSubmit, h1, h2, hf]

/-- Claim C1 (amended), witness at a concrete failing submit. -/
theorem chat_error_rollback_amended_witness :
    (jsTrim ("hi".data : Str)).isEmpty = false ∧
    handleSubmit ⟨"hi".data, [], false, []⟩ 5 (fun _ => .error ()) =
      ⟨⟨[], [] ++ [⟨5, Role.user, jsTrim "hi".data, 5⟩], false, []⟩,
       some (sendMessage (([] ++ [(⟨5, Role.user, jsTrim "hi".data, 5⟩ : Message)]).map
          projectMessage) (some defaultPersona)),
       some chatErrorToast, []⟩ :=
  ⟨by decide,
   chat_error_rollback_amended ⟨"hi".data, [], false, []⟩ 5 (fun _ => .error ())
     (by decide) rfl (fun _ => rfl)⟩

/-- Claim C2, counterexample: a successful ingestion submit clears the
training-text field without any Clear action, so the text state is not
preserved across every successful submit. -/
theorem ingest_success_clears_text_cex :
    (handleIngest ⟨"hello".data, false, none⟩ "default".data
        (fun _ => .ok ⟨some 1, none, none⟩)).1.text
      ≠ (⟨"hello".data, false, none⟩ : IngestState).text := by
  decide

/-- Claim C2 (amended): the training-text field is cleared by the explicit
Clear/X handlers and also on every successful ingestion submit; on a failed
submit the text is preserved.  The Clear handlers touch only the text cell. -/
theorem ingest_text_clearing_amended (s : IngestState) (p : Str)
    (res : Except (Option Str) IngestHttpResponse)
    (h : (jsTrim s.text).isEmpty = false) :
    (handleIngest s p (fun _ => res)).1.text
      = (match res with | .ok _ => [] | .error _ => s.text) ∧
    (clearTextClick s).text = [] ∧
    (clearTextClick s).isProcessing = s.isProcessing ∧
    (clearTextClick s).result = s.result := by
  refine ⟨?_, rfl, rfl, rfl⟩
  cases res <;> simp [handleIngest, h]

/-- Claim C2 (amended), witness at a concrete successful submit. -/
theorem ingest_text_clearing_amended_witness :
    (jsTrim (⟨"hello".data, false, none⟩ : IngestState).text).isEmpty = false ∧
    ((handleIngest ⟨"hello".data, false, none⟩ "default".data
        (fun _ => .ok ⟨some 1, none, none⟩)).1.text = [] ∧
     (clearTextClick ⟨"hello".data, false, none⟩).text = [] ∧
     (clearTextClick ⟨"hello".data, false, none⟩).isProcessing = false ∧
     (clearTextClick ⟨"hello".data, false, none⟩).result = none) :=
  ⟨by decide,
   ingest_text_clearing_amended ⟨"hello".data, false, none⟩ "default".data
     (.ok ⟨some 1, none, none⟩) (by decide)⟩

/-- Claim C3: the chat reveal is purely cosmetic — it is computed from the full,
already-received response text; the callback trace is exactly the successive
slices `text.slice(0, k + 1)`; each trace entry is a prefix of the response and
is one character longer than the previous one; and the assistant message's final
content equals the full response text exactly. -/
theorem chat_reveal_cosmetic (s : ChatState) (now : Nat)
    (fetch : ChatRequest → Except Unit Str) (responseText : Str)
    (h1 : (jsTrim s.message).isEmpty = false) (h2 : s.isLoading = false)
    (hf : ∀ r, fetch r = .ok responseText) :
    (handleSubmit s now fetch).revealTrace
        = (List.range responseText.length).map (fun k => responseText.take (k + 1)) ∧
    (∀ t ∈ (handleSubmit s now fetch).revealTrace, ∃ rest, t ++ rest = responseText) ∧
    ((handleSubmit s now fetch).revealTrace.map List.length
        = (List.range responseText.length).map (fun k => k + 1)) ∧
    (handleSubmit s now fetch).state.messages.getLast?
        = some ⟨now + 1, Role.assistant, responseText, now⟩ := by
  have htr := handleSubmit_ok_trace s now fetch responseText h1 h2 hf
  refine ⟨htr, ?_, ?_, handleSubmit_ok_last s now fetch responseText h1 h2 hf⟩
  · intro t ht
    rw [htr] at ht
    rw [List.mem_map] at ht
    obtain ⟨k, _, rfl⟩ := ht
    exact ⟨responseText.drop (k + 1), List.take_append_drop _ _⟩
  · rw [htr]
    exact map_length_take responseText

/-- Claim C3, witness at a concrete successful chat turn. -/
theorem chat_reveal_cosmetic_witness :
    (jsTrim ("hi".data : Str)).isEmpty = false ∧
    ((handleSubmit ⟨"hi".data, [], false, []⟩ 0 (fun _ => .ok "ok!".data)).revealTrace
        = (List.range ("ok!".data : Str).length).map (fun k => ("ok!".data : Str).take (k + 1)) ∧
     (∀ t ∈ (handleSubmit ⟨"hi".data, [], false, []⟩ 0
          (fun _ => .ok "ok!".data)).revealTrace, ∃ rest, t ++ rest = "ok!".data) ∧
     ((handleSubmit ⟨"hi".data, [], false, []⟩ 0
          (fun _ => .ok "ok!".data)).revealTrace.map List.length
        = (List.range ("ok!".data : Str).length).map (fun k => k + 1)) ∧
     (handleSubmit ⟨"hi".data, [], false, []⟩ 0
          (fun _ => .ok "ok!".data)).state.messages.getLast?
        = some ⟨0 + 1, Role.assistant, "ok!".data, 0⟩) :=
  ⟨by decide,
   chat_reveal_cosmetic ⟨"hi".data, [], false, []⟩ 0 (fun _ => .ok "ok!".data)
     "ok!".data (by decide) rfl (fun _ => rfl)⟩

/-- Claim C4: for every non-whitespace input text, the ingestion endpoint
(modelled from the spec) returns `chunks_processed ≥ 1`, and the `chunk_index`
values of the rows produced by that one ingestion are exactly the distinct
integers `0, 1, …, chunks_processed - 1`. -/
theorem ingest_chunk_indices (embed : Str → List ℚ) (mkId : Nat → Str)
    (text : Str) (personaId : Str) (h : (jsTrim text).isEmpty = false) :
    ∃ resp rows, backendIngest embed mkId text personaId = .ok (resp, rows) ∧
      1 ≤ resp.chunks_processed ∧
      rows.map EmbeddingRow.chunk_index = List.range resp.chunks_processed ∧
      (rows.map EmbeddingRow.chunk_index).Nodup := by
  have htext : text ≠ [] := by
    intro he
    rw [he] at h
    simp [jsTrim] at h
  refine ⟨⟨(chunkText text).length,
      ("Ingested " ++ toString (chunkText text).length ++ " chunks").data⟩,
    mkRows embed mkId personaId (chunkText text) 0, ?_, ?_, ?_, ?_⟩
  · simp [backendIngest, h]
  · exact chunkText_length_pos text htext
  · rw [mkRows_map_chunk_index]
    exact (List.range_eq_range' _).symm
  · rw [mkRows_map_chunk_index, ← List.range_eq_range']
    exact List.nodup_range _

/-- Claim C4, witness: the spec's own end-to-end sample text produces one chunk
with `chunk_index` 0. -/
theorem ingest_chunk_indices_witness :
    (jsTrim ("Doug likes blue.".data : Str)).isEmpty = false ∧
    (∃ resp rows,
      backendIngest (fun _ => []) (fun _ => []) "Doug likes blue.".data "default".data
          = .ok (resp, rows) ∧
        1 ≤ resp.chunks_processed ∧
        rows.map EmbeddingRow.chunk_index = List.range resp.chunks_processed ∧
        (rows.map EmbeddingRow.chunk_index).Nodup) :=
  ⟨by decide,
   ingest_chunk_indices (fun _ => []) (fun _ => []) "Doug likes blue.".data
     "default".data (by decide)⟩

/-- Claim C5: for whitespace-only text the ingestion endpoint (modelled from the
spec) fails with `ValidationError` and stores nothing, and the client handler
never issues the HTTP request: it shows an error toast and leaves the component
state exactly as it was. -/
theorem whitespace_ingest_rejected (embed : Str → List ℚ) (mkId : Nat → Str)
    (text : Str) (personaId : Str) (s : IngestState) (p : Str)
    (call : IngestRequest → Except (Option Str) IngestHttpResponse)
    (h : (jsTrim text).isEmpty = true) (hs : (jsTrim s.text).isEmpty = true) :
    backendIngest embed mkId text personaId = .error IngestError.ValidationError ∧
    (∀ resp rows, backendIngest embed mkId text personaId ≠ .ok (resp, rows)) ∧
    handleIngest s p call = (s, none, some emptyTextToast) := by
  refine ⟨by simp [backendIngest, h], ?_, by simp [handleIngest, hs]⟩
  intro resp rows hok
  rw [backendIngest] at hok
  simp [h] at hok

/-- Claim C5, witness at concrete whitespace-only inputs. -/
theorem whitespace_ingest_rejected_witness :
    (jsTrim ("   ".data : Str)).isEmpty = true ∧
    (jsTrim (⟨" ".data, false, none⟩ : IngestState).text).isEmpty = true ∧
    (backendIngest (fun _ => []) (fun _ => []) "   ".data "default".data
        = .error IngestError.ValidationError ∧
     (∀ resp rows, backendIngest (fun _ => []) (fun _ => []) "   ".data "default".data
        ≠ .ok (resp, rows)) ∧
     handleIngest ⟨" ".data, false, none⟩ "default".data (fun _ => .error none)
        = (⟨" ".data, false, none⟩, none, some emptyTextToast)) :=
  ⟨by decide, by decide,
   whitespace_ingest_rejected (fun _ => []) (fun _ => []) "   ".data "default".data
     ⟨" ".data, false, none⟩ "default".data (fun _ => .error none)
     (by decide) (by decide)⟩

/-- Claim C6, counterexample: `api.chat` without an explicit persona does not
substitute `'default'` — the request's `persona_id` is simply absent. -/
theorem chat_request_persona_default_cex :
    (apiChat "hi".data none).persona_id ≠ some defaultPersona := by
  decide

/-- Claim C6 (amended): every chat request built by the client carries
temperature 0.7, max_tokens 1000 and use_context true; `chatAPI.sendMessage`
substitutes persona_id `'default'` when its caller omits the persona, while
`api.chat` forwards the caller's persona unchanged, leaving `persona_id` absent
when none is supplied. -/
theorem chat_request_fixed_params (m : Str) (p : Option Str)
    (msgs : List RoleContent) (pid : Option Str) :
    (apiChat m p).temperature = 0.7 ∧ (apiChat m p).max_tokens = 1000 ∧
    (apiChat m p).use_context = true ∧ (apiChat m p).persona_id = p ∧
    (sendMessage msgs pid).temperature = 0.7 ∧
    (sendMessage msgs pid).max_tokens = 1000 ∧
    (sendMessage msgs pid).use_context = true ∧
    (sendMessage msgs pid).persona_id = some (pid.getD defaultPersona) ∧
    (sendMessage msgs none).persona_id = some defaultPersona :=
  ⟨rfl, rfl, rfl, rfl, rfl, rfl, rfl, rfl, rfl⟩

/-- Claim C7: on every chat turn the client re-sends the full conversation
history — the request's messages payload is exactly the prior message list
extended with the new user message, in order, each entry projected to
`{role, content}`, with the fixed parameters and persona `'default'`. -/
theorem chat_resends_full_history (s : ChatState) (now : Nat)
    (fetch : ChatRequest → Except Unit Str)
    (h1 : (jsTrim s.message).isEmpty = false) (h2 : s.isLoading = false) :
    (handleSubmit s now fetch).request =
      some { message := none
             messages := some (s.messages.map projectMessage
               ++ [⟨Role.user, jsTrim s.message⟩])
             persona_id := some defaultPersona
             use_context := true
             temperature := 0.7
             max_tokens := 1000 } := by
  rw [handleSubmit]
  have hc : ((jsTrim s.message).isEmpty || s.isLoading) = false := by
    rw [h1, h2]
    rfl
  rw [hc]
  simp only [Bool.false_eq_true, if_false]
  cases fetch _ <;> simp [sendMessage, projectMessage]

/-- Claim C7, witness at a two-message prior history. -/
theorem chat_resends_full_history_witness :
    (jsTrim ("and you?".data : Str)).isEmpty = false ∧
    (handleSubmit
        ⟨"and you?".data,
         [⟨1, Role.user, "hey".data, 1⟩, ⟨2, Role.assistant, "hi!".data, 2⟩],
         false, []⟩ 9 (fun _ => .error ())).request =
      some { message := none
             messages := some
               (([⟨1, Role.user, "hey".data, 1⟩,
                  ⟨2, Role.assistant, "hi!".data, 2⟩] : List Message).map projectMessage
                 ++ [⟨Role.user, jsTrim "and you?".data⟩])
             persona_id := some defaultPersona
             use_context := true
             temperature := 0.7
             max_tokens := 1000 } :=
  ⟨by decide,
   chat_resends_full_history
     ⟨"and you?".data,
      [⟨1, Role.user, "hey".data, 1⟩, ⟨2, Role.assistant, "hi!".data, 2⟩],
      false, []⟩ 9 (fun _ => .error ()) (by decide) rfl⟩

/-- Claim C8: while a request is in flight the text input and Send button are
disabled, and a submit attempt while loading or with a blank (whitespace-only)
message is a complete no-op: no request is issued, no toast is shown and the
state is unchanged. -/
theorem sending_state_guard (s : ChatState) (now : Nat)
    (fetch : ChatRequest → Except Unit Str)
    (h : (jsTrim s.message).isEmpty = true ∨ s.isLoading = true) :
    handleSubmit s now fetch = ⟨s, none, none, []⟩ ∧
    (s.isLoading = true → chatInputDisabled s = true) ∧
    (s.isLoading = true → sendButtonDisabled s = true) ∧
    ((jsTrim s.message).isEmpty = true → sendButtonDisabled s = true) := by
  refine ⟨?_, ?_, ?_, ?_⟩
  · have hc : ((jsTrim s.message).isEmpty || s.isLoading) = true := by
      rcases h with h | h <;> simp [h]
    simp [handleSubmit, hc]
  · intro hl
    simp [chatInputDisabled, hl]
  · intro hl
    simp [sendButtonDisabled, hl]
  · intro hm
    simp [sendButtonDisabled, hm]

/-- Claim C8, witness: a submit attempt during the Sending state is a no-op. -/
theorem sending_state_guard_witness :
    ((jsTrim ("hi".data : Str)).isEmpty = true ∨
      (⟨"hi".data, [], true, []⟩ : ChatState).isLoading = true) ∧
    (handleSubmit ⟨"hi".data, [], true, []⟩ 0 (fun _ => .error ())
        = ⟨⟨"hi".data, [], true, []⟩, none, none, []⟩ ∧
     ((⟨"hi".data, [], true, []⟩ : ChatState).isLoading = true →
        chatInputDisabled ⟨"hi".data, [], true, []⟩ = true) ∧
     ((⟨"hi".data, [], true, []⟩ : ChatState).isLoading = true →
        sendButtonDisabled ⟨"hi".data, [], true, []⟩ = true) ∧
     ((jsTrim (⟨"hi".data, [], true, []⟩ : ChatState).message).isEmpty = true →
        sendButtonDisabled ⟨"hi".data, [], true, []⟩ = true)) :=
  ⟨Or.inr rfl,
   sending_state_guard ⟨"hi".data, [], true, []⟩ 0 (fun _ => .error ()) (Or.inr rfl)⟩

/-- Claim C9: every quick-action button only pre-fills the input field with its
fixed prompt text — clicking one changes only the input-field state, issues no
HTTP request, and leaves the message list, loading flag and streaming buffer
unchanged. -/
theorem quick_actions_prefill_only (s : ChatState) (prompt : Str) :
    quickActionClick s prompt = ({ s with message := prompt }, none) ∧
    (quickActionClick s prompt).1.messages = s.messages ∧
    (quickActionClick s prompt).1.isLoading = s.isLoading ∧
    (quickActionClick s prompt).1.streamingContent = s.streamingContent ∧
    (quickActionClick s prompt).1.message = prompt ∧
    (quickActionClick s prompt).2 = none ∧
    askAboutMeClick s = quickActionClick s "Tell me about yourself".data ∧
    learnFromInsightsClick s = quickActionClick s "What insights do you have?".data ∧
    jamOnProblemClick s = quickActionClick s "Help me solve a problem".data :=
  ⟨rfl, rfl, rfl, rfl, rfl, rfl, rfl, rfl, rfl⟩

/-- Claim C10: the typewriter interval terminates on its own — after
`text.length + 1` firings it has emitted exactly `text.length` content updates,
each one character longer than the one before, and has cleared its own interval,
after which further time leaves the timer state unchanged. -/
theorem typewriter_reveal_terminates (text : Str) :
    typewriterRun text (text.length + 1) =
      ⟨text.length, (List.range text.length).map (fun k => text.take (k + 1)), true⟩ ∧
    (typewriterRun text (text.length + 1)).emitted.length = text.length ∧
    (typewriterRun text (text.length + 1)).emitted.map List.length
      = (List.range text.length).map (fun k => k + 1) ∧
    (∀ n, typewriterRun text (text.length + 1 + n)
      = typewriterRun text (text.length + 1)) := by
  refine ⟨typewriterRun_complete text, ?_, ?_, typewriterRun_stable text⟩
  · rw [typewriterRun_complete]
    simp
  · rw [typewriterRun_complete]
    exact map_length_take text

end DougClone
